import Mathlib

/-!
Verification development for the purchase-order / GL-account backend
(`src/backend/src/purchase-orders/purchase-orders.service.ts`,
`src/backend/src/gl-accounts/gl-accounts.service.ts`, and the alternate
purchase-order service variant found in the repository).

Embedding conventions:

* Prisma `Decimal` values are modelled as `ℚ`.  All arithmetic the services
  perform (`Decimal.mul`, `Decimal.add` on DECIMAL(10,2)-scale operands) is
  exact in Decimal.js at its default precision, so `ℚ` is a faithful model.
* Opaque uuid identifiers are modelled as `ℕ`, drawn from a `nextId` counter
  held in the database state.
* The persistence layer (`this.prisma`) is modelled as explicit state:
  lists of rows.  A Prisma call that throws is modelled with `Option`
  (`none` = an exception reached the surrounding try/catch) or with an
  explicit persist-outcome parameter where a claim is about the catch logic.
* NestJS exceptions are the constructors of `ThrownError`; an exception of
  the persistence layer that escapes a service uncaught is `ThrownError.store`.
-/

/-- Rounds a rational `x` to two fractional digits (round-half-up on
the second decimal), the reading of "round2" used by the specification. -/
def round2 (x : ℚ) : ℚ := ((round (x * 100) : ℤ) : ℚ) / 100

/-- A rational representable with at most two fractional digits. -/
def hasAtMostTwoDecimals (x : ℚ) : Prop := ∃ n : ℤ, x * 100 = (n : ℚ)

theorem round2_eq_self {x : ℚ} (h : hasAtMostTwoDecimals x) : round2 x = x := by
  obtain ⟨n, hn⟩ := h
  have : round (x * 100) = n := by rw [hn]; exact round_intCast n
  rw [round2, this]
  have h100 : (100 : ℚ) ≠ 0 := by norm_num
  field_simp
  linarith [hn]

/-- Substring test on character lists (`needle` occurs contiguously inside
the second argument). -/
def listHasSub (needle : List Char) : List Char → Bool
  | [] => needle.isEmpty
  | c :: t => needle.isPrefixOf (c :: t) || listHasSub needle t

/-- Model of the Prisma `contains` filter as executed by the repository's
datasource.  `src/backend/prisma/schema.prisma` declares `provider = "mysql"`
with no explicit collation, so string columns use the MySQL default
case-insensitive collation and `contains` is a case-insensitive substring
match. -/
def mysqlContainsCI (haystack needle : String) : Bool :=
  listHasSub (needle.data.map Char.toLower) (haystack.data.map Char.toLower)

/-- Errors raised by the persistence layer.  `uniqueViolation target` models
a Prisma `P2002` unique-constraint error whose `meta.target` is `target`. -/
inductive StoreError where
  | uniqueViolation (target : List String)
  | other (msg : String)
deriving DecidableEq, Repr

/-- Errors observable by a caller of a service method: the NestJS exception
kinds thrown by the services, plus `store e` for a persistence-layer error
that escapes the service uncaught (no try/catch mapped it). -/
inductive ThrownError where
  | notFound (msg : String)
  | conflict (msg : String)
  | badRequest (msg : String)
  | store (e : StoreError)
deriving DecidableEq, Repr

/-! ## GL accounts service (`src/backend/src/gl-accounts/gl-accounts.service.ts`) -/

/-- A persisted `gl_accounts` row. -/
structure GLAccountRow where
  id : ℕ
  accountCode : String
  accountName : String
  description : Option String
deriving DecidableEq, Repr

/-- Model of `CreateGLAccountDto`: account code, name, optional description. -/
structure CreateGLAccountDto where
  accountCode : String
  accountName : String
  description : Option String
deriving DecidableEq, Repr

/-- The slice of persisted state the GL account service reads and writes:
the `gl_accounts` table plus, for the `_count.lineItems` relation count used
by `remove`, the `glAccount` reference held by each persisted purchase-order
line item. -/
structure GLState where
  accounts : List GLAccountRow
  lineItemRefs : List ℕ
deriving DecidableEq, Repr

namespace GLAccountsService

/-- Model of `GLAccountsService.create`, with the outcome of the final
`prisma.gLAccount.create` call made explicit (`persist`).  The method first
runs the optimistic pre-check (`findUnique` on `accountCode`, Conflict if a
row exists) and then persists.  The method body has no try/catch, so any
error the persistence layer raises propagates to the caller unmapped. -/
def create (dto : CreateGLAccountDto) (st : GLState)
    (persist : Except StoreError GLAccountRow) : Except ThrownError GLAccountRow :=
  if st.accounts.any (fun a => a.accountCode == dto.accountCode) then
    .error (.conflict "Account with code already exists")
  else
    match persist with
    | .ok r => .ok r
    | .error e => .error (.store e)

/-- The `where.OR` filter built by `GLAccountsService.findAll` when a search
term is present: `contains` on `accountCode` or on `accountName`. -/
def glMatchesSearch (search : String) (a : GLAccountRow) : Bool :=
  mysqlContainsCI a.accountCode search || mysqlContainsCI a.accountName search

/-- The set of rows matched by `findAll`'s search filter (pagination and
sorting then run over this set). -/
def glSearchResults (search : String) (accounts : List GLAccountRow) : List GLAccountRow :=
  accounts.filter (glMatchesSearch search)

/-- Model of `GLAccountsService.remove`: `findUnique` by id (NotFound if absent),
Conflict if the account's `_count.lineItems` is positive, otherwise delete
the row.  On an error result the state is unchanged. -/
def remove (id : ℕ) (st : GLState) : Except ThrownError GLState :=
  match st.accounts.find? (fun a => a.id == id) with
  | none => .error (.notFound "GL Account not found")
  | some _ =>
    if 0 < st.lineItemRefs.count id then
      .error (.conflict "Cannot delete GL Account. It is being used in line items")
    else
      .ok { st with accounts := st.accounts.filter (fun a => !(a.id == id)) }

end GLAccountsService

/-! ## Purchase order data model
(`src/backend/prisma/schema.prisma`, `src/backend/src/purchase-orders/dto`) -/

/-- A persisted `purchase_order_line_items` row, with the columns the
service reads and writes.  The GL account reference is kept as the single
field the service passes through (`item.glAccount`; by id in some variants
of the repository and by denormalized name in others — opaque here). -/
structure LineItemRow where
  id : ℕ
  purchaseOrderId : ℕ
  item : String
  quantity : ℚ
  unitPrice : ℚ
  description : Option String
  glAccount : String
  amount : ℚ
deriving DecidableEq, Repr

/-- The value-determining content of a line-item row: every column except
the generated identifiers.  Row sets are compared by content because the
full-replace reconciliation strategy re-creates rows under fresh ids. -/
structure LineItemContent where
  item : String
  quantity : ℚ
  unitPrice : ℚ
  description : Option String
  glAccount : String
  amount : ℚ
deriving DecidableEq, Repr

def LineItemRow.content (r : LineItemRow) : LineItemContent :=
  ⟨r.item, r.quantity, r.unitPrice, r.description, r.glAccount, r.amount⟩

/-- An element of the `lineItems` array of `UpdatePurchaseOrderDto`
(`update-purchase-order-line-item.dto.ts`): every field optional, `id`
present for existing rows, `_delete` marking deletion.  A JS field that is
absent (`undefined`) is `none`.  Validation guarantees `quantity` and
`unitPrice`, when present, are strictly positive with at most two decimal
places, so JS truthiness tests on them coincide with presence. -/
structure IncomingLineItem where
  id : Option ℕ
  _delete : Bool
  item : Option String
  quantity : Option ℚ
  unitPrice : Option ℚ
  description : Option String
  glAccount : Option String
deriving DecidableEq, Repr

/-- An element of the `lineItems` array of `CreatePurchaseOrderDto`
(`CreatePurchaseOrderLineItemDto`): item, quantity, unit price, optional
description, GL account reference — all required except description. -/
structure CreateLineItemDto where
  item : String
  quantity : ℚ
  unitPrice : ℚ
  description : Option String
  glAccount : String
deriving DecidableEq, Repr

/-- A persisted `purchase_orders` row. -/
structure PurchaseOrderRow where
  id : ℕ
  vendorName : String
  oneTimeVendor : Option String
  poDate : Option String
  poNumber : String
  customerSO : Option String
  customerInvoice : Option String
  apAccount : String
  transactionType : String
  transactionOrigin : Option String
  shipVia : Option String
  status : String
  totalAmount : ℚ
deriving DecidableEq, Repr

/-- Model of `CreatePurchaseOrderDto` (header fields plus the line-item array). -/
structure CreatePurchaseOrderDto where
  vendorName : String
  oneTimeVendor : Option String
  poDate : Option String
  poNumber : String
  customerSO : Option String
  customerInvoice : Option String
  apAccount : String
  transactionType : String
  transactionOrigin : Option String
  shipVia : Option String
  status : Option String
  lineItems : List CreateLineItemDto
deriving DecidableEq, Repr

/-- Model of `UpdatePurchaseOrderDto`: every header field optional, plus the optional
line-item array (`none` = the payload has no `lineItems` field). -/
structure UpdatePurchaseOrderDto where
  vendorName : Option String
  oneTimeVendor : Option String
  poDate : Option String
  poNumber : Option String
  customerSO : Option String
  customerInvoice : Option String
  apAccount : Option String
  transactionType : Option String
  transactionOrigin : Option String
  shipVia : Option String
  status : Option String
  lineItems : Option (List IncomingLineItem)
deriving DecidableEq, Repr

/-- The persisted state the purchase-order service reads and writes: the
orders table, the line-items table, and a counter supplying fresh ids. -/
structure DB where
  orders : List PurchaseOrderRow
  lineItems : List LineItemRow
  nextId : ℕ
deriving DecidableEq, Repr

/-- Well-formedness of the persisted state: every generated identifier is
below the fresh-id counter (so newly generated ids are genuinely fresh). -/
def DB.wf (db : DB) : Prop :=
  (∀ r ∈ db.lineItems, r.id < db.nextId ∧ r.purchaseOrderId < db.nextId) ∧
  (∀ o ∈ db.orders, o.id < db.nextId)

/-- The `@ArrayMinSize(1)` validation on `CreatePurchaseOrderDto.lineItems`
(`create-purchase-order.dto.ts`): at least one line item is required at
creation. -/
def createLineItemsMinSizeOk (lineItems : List CreateLineItemDto) : Bool :=
  decide (1 ≤ lineItems.length)

namespace PurchaseOrdersService

/-- Model of `calculateLineItemAmount`: `quantity.mul(unitPrice)` — the exact
product, no rounding. -/
def calculateLineItemAmount (quantity unitPrice : ℚ) : ℚ := quantity * unitPrice

/-- Model of `calculateTotalAmount`: `reduce((total, item) => total.add(item.amount),
new Decimal(0))` over the `amount` fields of its argument, modelled over the
extracted list of amounts. -/
def calculateTotalAmount (amounts : List ℚ) : ℚ :=
  amounts.foldl (fun total amount => total + amount) 0

/-- The `createMany` payload built by the full-replace
`handleLineItemsUpdate`: for each non-deleted incoming item a fresh row with
`amount` recomputed from its quantity and unit price.  `none` models the
exception thrown when a required field is absent (`new Decimal(undefined)`
throws; a missing required column is rejected by the store), which the
caller's catch turns into BadRequest.  Fresh row ids are drawn from `n`. -/
def buildCreateRows (purchaseOrderId : ℕ) :
    List IncomingLineItem → ℕ → Option (List LineItemRow × ℕ)
  | [], n => some ([], n)
  | i :: rest, n =>
    match i.item, i.quantity, i.unitPrice, i.glAccount with
    | some it, some q, some p, some gl =>
      match buildCreateRows purchaseOrderId rest (n + 1) with
      | some (rows, n') =>
        some ({ id := n, purchaseOrderId := purchaseOrderId, item := it,
                quantity := q, unitPrice := p, description := i.description,
                glAccount := gl,
                amount := calculateLineItemAmount q p } :: rows, n')
      | none => none
    | _, _, _, _ => none

/-- Model of `handleLineItemsUpdate` (full-replace variant,
`src/backend/src/purchase-orders/purchase-orders.service.ts`): delete every
line item of the order, then re-create all incoming items not flagged
`_delete`.  Returns the new line-items table and id counter, `none` when
row construction throws. -/
def handleLineItemsUpdate (purchaseOrderId : ℕ) (table : List LineItemRow)
    (lineItems : List IncomingLineItem) (nextId : ℕ) :
    Option (List LineItemRow × ℕ) :=
  let remaining := table.filter (fun r => !(r.purchaseOrderId == purchaseOrderId))
  if 0 < lineItems.length then
    match buildCreateRows purchaseOrderId
        (lineItems.filter (fun i => !i._delete)) nextId with
    | some (rows, n') => some (remaining ++ rows, n')
    | none => none
  else
    some (remaining, nextId)

end PurchaseOrdersService

namespace PurchaseOrdersService

/-- The `updateData` merge of `update`: fields of the dto that are present
overwrite the corresponding columns (`undefined` keys are removed from
`updateData` before the Prisma update, so absent fields leave the column
unchanged); `totalAmount` is always set. -/
def applyUpdateData (row : PurchaseOrderRow) (dto : UpdatePurchaseOrderDto)
    (totalAmount : ℚ) : PurchaseOrderRow :=
  { row with
    vendorName := dto.vendorName.getD row.vendorName
    oneTimeVendor := (dto.oneTimeVendor.map some).getD row.oneTimeVendor
    poDate := (dto.poDate.map some).getD row.poDate
    poNumber := dto.poNumber.getD row.poNumber
    customerSO := (dto.customerSO.map some).getD row.customerSO
    customerInvoice := (dto.customerInvoice.map some).getD row.customerInvoice
    apAccount := dto.apAccount.getD row.apAccount
    transactionType := dto.transactionType.getD row.transactionType
    transactionOrigin := (dto.transactionOrigin.map some).getD row.transactionOrigin
    shipVia := (dto.shipVia.map some).getD row.shipVia
    status := dto.status.getD row.status
    totalAmount := totalAmount }

/-- The nested `lineItems.create` rows of `create`: one row per payload
item, `amount` computed by `calculateLineItemAmount`, generated ids drawn
consecutively from `n`. -/
def buildRowsFromCreate (purchaseOrderId : ℕ) :
    List CreateLineItemDto → ℕ → List LineItemRow
  | [], _ => []
  | i :: rest, n =>
    { id := n, purchaseOrderId := purchaseOrderId, item := i.item,
      quantity := i.quantity, unitPrice := i.unitPrice,
      description := i.description, glAccount := i.glAccount,
      amount := calculateLineItemAmount i.quantity i.unitPrice
      : LineItemRow } :: buildRowsFromCreate purchaseOrderId rest (n + 1)

/-- Model of `PurchaseOrdersService.create` with an in-sequence successful persist
(the persist-failure catch logic is modelled separately by
`createWithPersist`).  Pre-check on `poNumber` (Conflict); compute each line
item's amount and the total from the payload; insert the order row (status
defaulting to DRAFT) and its line-item rows as one logical unit.  Returns
the created order, its created line-item rows, and the new state. -/
def create (dto : CreatePurchaseOrderDto) (db : DB) :
    Except ThrownError (PurchaseOrderRow × List LineItemRow × DB) :=
  if db.orders.any (fun o => o.poNumber == dto.poNumber) then
    .error (.conflict "Purchase Order with this number already exists")
  else
    let amounts := dto.lineItems.map
      (fun i => calculateLineItemAmount i.quantity i.unitPrice)
    let totalAmount := calculateTotalAmount amounts
    let poId := db.nextId
    let rows := buildRowsFromCreate poId dto.lineItems (db.nextId + 1)
    let po : PurchaseOrderRow :=
      { id := poId, vendorName := dto.vendorName,
        oneTimeVendor := dto.oneTimeVendor, poDate := dto.poDate,
        poNumber := dto.poNumber, customerSO := dto.customerSO,
        customerInvoice := dto.customerInvoice, apAccount := dto.apAccount,
        transactionType := dto.transactionType,
        transactionOrigin := dto.transactionOrigin, shipVia := dto.shipVia,
        status := dto.status.getD "DRAFT", totalAmount := totalAmount }
    .ok (po, rows,
      { orders := db.orders ++ [po], lineItems := db.lineItems ++ rows,
        nextId := db.nextId + 1 + dto.lineItems.length })

/-- The guard of `update`'s duplicate-poNumber check: a `poNumber` is in
the payload, differs from the existing one, and another order already uses
it (the lookup is `findUnique` on the unique `poNumber` column, modelled as
a scan of the orders table). -/
def poNumberConflict (dto : UpdatePurchaseOrderDto) (existingPO : PurchaseOrderRow)
    (orders : List PurchaseOrderRow) : Bool :=
  match dto.poNumber with
  | some n => !(n == existingPO.poNumber) && orders.any (fun o => o.poNumber == n)
  | none => false

/-- The `if (updatePurchaseOrderDto.lineItems) handleLineItemsUpdate(...)`
step of `update`, followed by the `findMany` re-read: the line-item table
and id counter after the optional reconciliation (unchanged when the
payload has no `lineItems` field). -/
def lineItemsStep (id : ℕ) (db : DB) (dto : UpdatePurchaseOrderDto) :
    Option (List LineItemRow × ℕ) :=
  match dto.lineItems with
  | some lis => handleLineItemsUpdate id db.lineItems lis db.nextId
  | none => some (db.lineItems, db.nextId)

/-- Model of `PurchaseOrdersService.update`: NotFound if the order is absent; if
`poNumber` is present and changing, Conflict on collision; if `lineItems`
is present run `handleLineItemsUpdate` (a throw there is mapped to
BadRequest by the catch); then always recompute `totalAmount` from the
line-item rows now persisted for the order, and apply the header update
together with the new total. -/
def update (id : ℕ) (dto : UpdatePurchaseOrderDto) (db : DB) :
    Except ThrownError (PurchaseOrderRow × DB) :=
  match db.orders.find? (fun o => o.id == id) with
  | none => .error (.notFound "Purchase Order not found")
  | some existingPO =>
    if poNumberConflict dto existingPO db.orders then
      .error (.conflict "Purchase Order with this number already exists")
    else
      match lineItemsStep id db dto with
      | none => .error (.badRequest "Failed to update purchase order")
      | some (table, n') =>
        let updatedLineItems := table.filter (fun r => r.purchaseOrderId == id)
        let totalAmount := calculateTotalAmount (updatedLineItems.map (·.amount))
        let updatedPO := applyUpdateData existingPO dto totalAmount
        .ok (updatedPO,
          { orders := db.orders.map (fun o => if o.id == id then updatedPO else o),
            lineItems := table, nextId := n' })

/-- The catch block of `PurchaseOrdersService.create`: a ConflictException
is rethrown; a persistence error with code `P2002` whose `meta.target`
includes `poNumber` is re-reported as ConflictException; anything else
becomes BadRequestException. -/
def createErrorMapping (e : ThrownError) : ThrownError :=
  match e with
  | .conflict m => .conflict m
  | .store (.uniqueViolation target) =>
    if target.contains "poNumber" then
      .conflict "Purchase Order with this number already exists"
    else .badRequest "Failed to create purchase order"
  | _ => .badRequest "Failed to create purchase order"

/-- Model of `PurchaseOrdersService.create` with the outcome of the persisting
`prisma.purchaseOrder.create` call made explicit, capturing the try/catch:
the pre-check Conflict is rethrown by the catch, and a persist-time error
is routed through `createErrorMapping`. -/
def createWithPersist (dto : CreatePurchaseOrderDto) (db : DB)
    (persist : Except StoreError PurchaseOrderRow) :
    Except ThrownError PurchaseOrderRow :=
  if db.orders.any (fun o => o.poNumber == dto.poNumber) then
    .error (createErrorMapping (.conflict "Purchase Order with this number already exists"))
  else
    match persist with
    | .ok r => .ok r
    | .error e => .error (createErrorMapping (.store e))

end PurchaseOrdersService

/-! ## Differential reconciliation variant (`src/unnamed/part_001`) -/

namespace PurchaseOrdersServiceDiff

open PurchaseOrdersService (calculateLineItemAmount buildCreateRows)

/-- The per-item update step of the differential `handleLineItemsUpdate`
(items with an id and no `_delete` flag): build `updateData` from the
present fields; if quantity or unit price is present, fetch the persisted
row (`findUnique`, a null dereference throws when it is absent) and
recompute `amount` from the supplied value, falling back to the persisted
one for the side not supplied; then `prisma.purchaseOrderLineItem.update`
by id (throws if no such row).  `none` models a throw reaching the caller's
catch. -/
def applyItemUpdate (table : List LineItemRow) (i : IncomingLineItem) :
    Option (List LineItemRow) := do
  let iid ← i.id
  let amount? ←
    (if i.quantity.isSome || i.unitPrice.isSome then
      match table.find? (fun r => r.id == iid) with
      | some existingItem =>
        some (some (calculateLineItemAmount
          (i.quantity.getD existingItem.quantity)
          (i.unitPrice.getD existingItem.unitPrice)))
      | none => none
    else
      some none)
  if table.any (fun r => r.id == iid) then
    pure (table.map (fun r =>
      if r.id == iid then
        { r with
          item := i.item.getD r.item
          quantity := i.quantity.getD r.quantity
          unitPrice := i.unitPrice.getD r.unitPrice
          description := (i.description.map some).getD r.description
          glAccount := i.glAccount.getD r.glAccount
          amount := amount?.getD r.amount }
      else r))
  else
    none

/-- Model of `handleLineItemsUpdate` (differential variant): partition the incoming
list into delete / update / create sets by the `_delete` flag and the
presence of an id; `deleteMany` the delete set (scoped to the order);
apply each update; `createMany` the create set with freshly computed
amounts and fresh ids. -/
def handleLineItemsUpdate (purchaseOrderId : ℕ) (table : List LineItemRow)
    (lineItems : List IncomingLineItem) (nextId : ℕ) :
    Option (List LineItemRow × ℕ) :=
  let lineItemsToDelete := lineItems.filter (fun i => i._delete && i.id.isSome)
  let lineItemsToUpdate := lineItems.filter (fun i => !i._delete && i.id.isSome)
  let lineItemsToCreate := lineItems.filter (fun i => !i._delete && i.id.isNone)
  let afterDelete := table.filter (fun r =>
    !(lineItemsToDelete.any (fun i => i.id == some r.id)
      && r.purchaseOrderId == purchaseOrderId))
  do
    let afterUpdate ← lineItemsToUpdate.foldlM applyItemUpdate afterDelete
    let (created, n') ← buildCreateRows purchaseOrderId lineItemsToCreate nextId
    pure (afterUpdate ++ created, n')

end PurchaseOrdersServiceDiff

/-- Resubmitting a persisted line-item row unchanged: the update-payload
element carrying the row's identifier, all its fields, and no deletion
flag. -/
def rowToIncoming (r : LineItemRow) : IncomingLineItem :=
  { id := some r.id, _delete := false, item := some r.item,
    quantity := some r.quantity, unitPrice := some r.unitPrice,
    description := r.description, glAccount := some r.glAccount }

/-- An update dto carrying only a line-item payload (every header field
absent). -/
def lineItemsOnlyDto (lis : Option (List IncomingLineItem)) : UpdatePurchaseOrderDto :=
  { vendorName := none, oneTimeVendor := none, poDate := none,
    poNumber := none, customerSO := none, customerInvoice := none,
    apAccount := none, transactionType := none, transactionOrigin := none,
    shipVia := none, status := none, lineItems := lis }

/-! ## General lemmas -/

theorem calculateTotalAmount_eq_sum (l : List ℚ) :
    PurchaseOrdersService.calculateTotalAmount l = l.sum := by
  have h : ∀ a : ℚ, l.foldl (fun total amount => total + amount) a = a + l.sum := by
    induction l with
    | nil => simp
    | cons x xs ih => intro a; simp [List.foldl_cons, ih, List.sum_cons]; ring
  simpa [PurchaseOrdersService.calculateTotalAmount] using h 0

/-! ## Claims -/

/-- Claim C3, as stated, fails on the code: `calculateLineItemAmount` is the
exact product `quantity.mul(unitPrice)` with no rounding, so at the valid
inputs quantity = unit price = 1.11 (strictly positive, two fractional
digits) the computed amount 1.2321 differs from
`round2(quantity * unitPrice) = 1.23`. -/
theorem C3_round2_counterexample :
    (0 < (111 / 100 : ℚ)) ∧ hasAtMostTwoDecimals (111 / 100 : ℚ) ∧
    PurchaseOrdersService.calculateLineItemAmount (111 / 100) (111 / 100)
      ≠ round2 ((111 / 100 : ℚ) * (111 / 100)) := by
  refine ⟨by norm_num, ⟨111, by norm_num⟩, ?_⟩
  have h1 : PurchaseOrdersService.calculateLineItemAmount (111 / 100) (111 / 100)
      = (12321 / 10000 : ℚ) := by
    rw [PurchaseOrdersService.calculateLineItemAmount]; norm_num
  have hr : round ((111 / 100 : ℚ) * (111 / 100) * 100) = 123 := by
    have h2 : ((111 / 100 : ℚ) * (111 / 100) * 100) = 12321 / 100 := by norm_num
    rw [h2, round_eq]
    norm_num
  rw [h1, round2, hr]
  norm_num

/-- Claim C3 (amended): for every valid line item (quantity and unit price
strictly positive with at most two fractional digits) the computed amount is
the exact product `quantity * unitPrice`, with no rounding applied by the
computation; it coincides with `round2(quantity * unitPrice)` exactly when
the product itself already has at most two fractional digits. -/
theorem C3_amount_exact_product (q p : ℚ) (hq : 0 < q) (hp : 0 < p)
    (hq2 : hasAtMostTwoDecimals q) (hp2 : hasAtMostTwoDecimals p) :
    PurchaseOrdersService.calculateLineItemAmount q p = q * p ∧
    (hasAtMostTwoDecimals (q * p) →
      PurchaseOrdersService.calculateLineItemAmount q p = round2 (q * p)) :=
  ⟨rfl, fun h => (round2_eq_self h).symm⟩

theorem C3_amount_exact_product_witness :
    PurchaseOrdersService.calculateLineItemAmount 2 (3 / 2) = 2 * (3 / 2) ∧
    (hasAtMostTwoDecimals ((2 : ℚ) * (3 / 2)) →
      PurchaseOrdersService.calculateLineItemAmount 2 (3 / 2) = round2 ((2 : ℚ) * (3 / 2))) :=
  C3_amount_exact_product 2 (3 / 2) (by norm_num) (by norm_num)
    ⟨200, by norm_num⟩ ⟨150, by norm_num⟩

/-- Claim C5 evaluated at the failing input: with an empty table (so the
optimistic pre-check passes) and a persist-time unique-constraint violation
(the race the spec describes), `PurchaseOrdersService.create` catches the
`P2002` error and re-reports it as the Conflict kind, but
`GLAccountsService.create` has no try/catch at all, so the raw persistence
error escapes to the caller instead of the Conflict the pre-check produces.
The claim is therefore right about the purchase-order service and the GL
account service code contradicts the spec's explicit requirement. -/
theorem C5_persist_conflict_divergence :
    PurchaseOrdersService.createWithPersist
        ⟨"Acme", none, none, "PO-1", none, none, "AP", "Goods", none, none,
          none, [⟨"Widget", 1, 2, none, "5000"⟩]⟩
        ⟨[], [], 0⟩ (.error (.uniqueViolation ["poNumber"]))
      = .error (.conflict "Purchase Order with this number already exists") ∧
    GLAccountsService.create ⟨"1000", "Cash", none⟩ ⟨[], []⟩
        (.error (.uniqueViolation ["accountCode"]))
      = .error (.store (.uniqueViolation ["accountCode"])) :=
  ⟨rfl, rfl⟩

/-- Claim C6: `GLAccountsService.remove` fails with NotFound when no account
with the id exists; fails with Conflict when the account's line-item usage
count is positive (the error result leaves the state, hence the account, in
place); otherwise deletes exactly that account row. -/
theorem C6_remove_cases (id : ℕ) (st : GLState) :
    (st.accounts.find? (fun a => a.id == id) = none →
      GLAccountsService.remove id st = .error (.notFound "GL Account not found")) ∧
    (∀ a, st.accounts.find? (fun a => a.id == id) = some a →
      0 < st.lineItemRefs.count id →
      GLAccountsService.remove id st =
        .error (.conflict "Cannot delete GL Account. It is being used in line items")) ∧
    (∀ a, st.accounts.find? (fun a => a.id == id) = some a →
      st.lineItemRefs.count id = 0 →
      GLAccountsService.remove id st =
        .ok { st with accounts := st.accounts.filter (fun a => !(a.id == id)) }) := by
  refine ⟨fun h => ?_, fun a ha hc => ?_, fun a ha hc => ?_⟩
  · simp [GLAccountsService.remove, h]
  · simp [GLAccountsService.remove, ha, hc]
  · simp [GLAccountsService.remove, ha, hc]

theorem C6_remove_cases_witness :
    GLAccountsService.remove 1 ⟨[⟨1, "1000", "Cash", none⟩], []⟩ =
      .ok { (⟨[⟨1, "1000", "Cash", none⟩], []⟩ : GLState) with
        accounts := (⟨[⟨1, "1000", "Cash", none⟩], []⟩ : GLState).accounts.filter
          (fun a => !(a.id == 1)) } :=
  (C6_remove_cases 1 ⟨[⟨1, "1000", "Cash", none⟩], []⟩).2.2
    ⟨1, "1000", "Cash", none⟩ rfl rfl

/-- Claim C7: the `findAll` search filter is a case-insensitive substring
match on code or name; every account whose name contains the search term
case-insensitively is included in the matching set. -/
theorem C7_search_ci_name (search : String) (a : GLAccountRow)
    (accounts : List GLAccountRow) (ha : a ∈ accounts)
    (hname : mysqlContainsCI a.accountName search = true) :
    a ∈ GLAccountsService.glSearchResults search accounts := by
  unfold GLAccountsService.glSearchResults
  exact List.mem_filter.mpr
    ⟨ha, by simp [GLAccountsService.glMatchesSearch, hname]⟩

theorem C7_search_ci_name_witness :
    (⟨1, "1000", "Cash and Equivalents", none⟩ : GLAccountRow) ∈
      GLAccountsService.glSearchResults "cash"
        [⟨1, "1000", "Cash and Equivalents", none⟩] :=
  C7_search_ci_name "cash" ⟨1, "1000", "Cash and Equivalents", none⟩
    [⟨1, "1000", "Cash and Equivalents", none⟩] (by simp) (by decide)

/-- Claim C10: in the differential reconciliation variant, an incoming
element with the deletion flag set but no identifier falls into none of the
delete / update / create partitions; removing it from the payload leaves the
outcome of `handleLineItemsUpdate` unchanged, so it deletes, updates, and
inserts nothing. -/
theorem C10_flagged_item_without_id_no_effect (purchaseOrderId nextId : ℕ)
    (table : List LineItemRow) (l1 l2 : List IncomingLineItem)
    (g : IncomingLineItem) (hid : g.id = none) (hdel : g._delete = true) :
    PurchaseOrdersServiceDiff.handleLineItemsUpdate purchaseOrderId table
        (l1 ++ g :: l2) nextId =
      PurchaseOrdersServiceDiff.handleLineItemsUpdate purchaseOrderId table
        (l1 ++ l2) nextId := by
  unfold PurchaseOrdersServiceDiff.handleLineItemsUpdate
  simp [List.filter_append, hid, hdel]

theorem C10_flagged_item_without_id_no_effect_witness :
    PurchaseOrdersServiceDiff.handleLineItemsUpdate 7
        [⟨3, 7, "Pens", 2, 5, none, "5000", 10⟩]
        ([] ++ ⟨none, true, some "Ghost", some 1, some 1, none, some "5000"⟩ :: []) 11 =
      PurchaseOrdersServiceDiff.handleLineItemsUpdate 7
        [⟨3, 7, "Pens", 2, 5, none, "5000", 10⟩] ([] ++ []) 11 :=
  C10_flagged_item_without_id_no_effect 7 11
    [⟨3, 7, "Pens", 2, 5, none, "5000", 10⟩] [] []
    ⟨none, true, some "Ghost", some 1, some 1, none, some "5000"⟩ rfl rfl

theorem buildRowsFromCreate_amounts (poId : ℕ) (items : List CreateLineItemDto) (n : ℕ) :
    (PurchaseOrdersService.buildRowsFromCreate poId items n).map (·.amount) =
      items.map (fun i => PurchaseOrdersService.calculateLineItemAmount i.quantity i.unitPrice) := by
  induction items generalizing n with
  | nil => simp [PurchaseOrdersService.buildRowsFromCreate]
  | cons i rest ih => simp [PurchaseOrdersService.buildRowsFromCreate, ih]

theorem buildRowsFromCreate_poId (poId : ℕ) (items : List CreateLineItemDto) (n : ℕ) :
    ∀ r ∈ PurchaseOrdersService.buildRowsFromCreate poId items n, r.purchaseOrderId = poId := by
  induction items generalizing n with
  | nil => simp [PurchaseOrdersService.buildRowsFromCreate]
  | cons i rest ih =>
    intro r hr
    simp only [PurchaseOrdersService.buildRowsFromCreate, List.mem_cons] at hr
    rcases hr with h | h
    · subst h; rfl
    · exact ih (n + 1) r h

theorem remaining_filter_nil (poId : ℕ) (table : List LineItemRow) :
    (table.filter (fun r => !(r.purchaseOrderId == poId))).filter
      (fun r => r.purchaseOrderId == poId) = [] := by
  induction table with
  | nil => rfl
  | cons r t ih => by_cases h : r.purchaseOrderId = poId <;> simp [List.filter_cons, h, ih]

theorem filter_poId_self (poId : ℕ) (rows : List LineItemRow)
    (hall : ∀ r ∈ rows, r.purchaseOrderId = poId) :
    rows.filter (fun r => r.purchaseOrderId == poId) = rows := by
  apply List.filter_eq_self.mpr
  intro a ha
  simp [hall a ha]

/-- Elimination lemma for a successful `PurchaseOrdersService.update`: the
returned order keeps the id it was looked up under, its `totalAmount` is the
sum of the amounts of the line-item rows persisted for it in the resulting
state, and a payload without a `lineItems` field leaves the line-item table
untouched. -/
theorem update_ok_elim (id : ℕ) (dto : UpdatePurchaseOrderDto) (db : DB)
    (po : PurchaseOrderRow) (db' : DB)
    (h : PurchaseOrdersService.update id dto db = .ok (po, db')) :
    po.id = id ∧
    po.totalAmount =
      ((db'.lineItems.filter (fun r => r.purchaseOrderId == id)).map (·.amount)).sum ∧
    (dto.lineItems = none → db'.lineItems = db.lineItems) := by
  cases hfind : db.orders.find? (fun o => o.id == id) with
  | none =>
    simp only [PurchaseOrdersService.update, hfind] at h
    exact absurd h (by simp)
  | some existingPO =>
    simp only [PurchaseOrdersService.update, hfind] at h
    have hid : existingPO.id = id := by
      have := List.find?_some hfind
      simpa using this
    by_cases hc : PurchaseOrdersService.poNumberConflict dto existingPO db.orders
    · rw [if_pos hc] at h; exact absurd h (by simp)
    · rw [if_neg hc] at h
      cases hstep : PurchaseOrdersService.lineItemsStep id db dto with
      | none => rw [hstep] at h; exact absurd h (by simp)
      | some tn =>
        obtain ⟨table, n'⟩ := tn
        rw [hstep] at h
        simp only [Except.ok.injEq, Prod.mk.injEq] at h
        obtain ⟨hpo, hdb⟩ := h
        refine ⟨?_, ?_, ?_⟩
        · rw [← hpo]; simpa [PurchaseOrdersService.applyUpdateData] using hid
        · rw [← hpo, ← hdb]
          simp [PurchaseOrdersService.applyUpdateData,
            calculateTotalAmount_eq_sum]
        · intro hnone
          rw [← hdb]
          simp only [PurchaseOrdersService.lineItemsStep, hnone,
            Option.some.injEq, Prod.mk.injEq] at hstep
          simp [← hstep.1]

/-- Elimination lemma for a successful `PurchaseOrdersService.create`: the
created order takes the fresh id, the created line-item rows are exactly the
payload rows with computed amounts, they are appended to the table, and the
order's `totalAmount` is the sum of their amounts. -/
theorem create_ok_elim (dto : CreatePurchaseOrderDto) (db : DB)
    (po : PurchaseOrderRow) (rows : List LineItemRow) (db' : DB)
    (h : PurchaseOrdersService.create dto db = .ok (po, rows, db')) :
    po.id = db.nextId ∧
    rows = PurchaseOrdersService.buildRowsFromCreate db.nextId dto.lineItems (db.nextId + 1) ∧
    db'.lineItems = db.lineItems ++ rows ∧
    po.totalAmount = (rows.map (·.amount)).sum := by
  cases hdup : db.orders.any (fun o => o.poNumber == dto.poNumber) with
  | true =>
    simp only [PurchaseOrdersService.create, hdup] at h
    exact absurd h (by simp)
  | false =>
    simp only [PurchaseOrdersService.create, hdup, Bool.false_eq_true, if_false,
      Except.ok.injEq, Prod.mk.injEq] at h
    obtain ⟨hpo, hrows, hdb⟩ := h
    refine ⟨by rw [← hpo], hrows.symm, by rw [← hdb, hrows], ?_⟩
    rw [← hpo, ← hrows]
    simp [buildRowsFromCreate_amounts, calculateTotalAmount_eq_sum]

/-- Characterization of a successful `PurchaseOrdersService.update` run:
when the lookup, the poNumber guard, and the line-items step are as given,
`update` returns the header-updated order carrying the recomputed total, and
the state holds the reconciled line-item table. -/
theorem update_eq_ok (id : ℕ) (dto : UpdatePurchaseOrderDto) (db : DB)
    (existingPO : PurchaseOrderRow) (table : List LineItemRow) (n' : ℕ)
    (hfind : db.orders.find? (fun o => o.id == id) = some existingPO)
    (hc : PurchaseOrdersService.poNumberConflict dto existingPO db.orders = false)
    (hstep : PurchaseOrdersService.lineItemsStep id db dto = some (table, n')) :
    PurchaseOrdersService.update id dto db =
      .ok (PurchaseOrdersService.applyUpdateData existingPO dto
            (PurchaseOrdersService.calculateTotalAmount
              ((table.filter (fun r => r.purchaseOrderId == id)).map (·.amount))),
        ⟨db.orders.map (fun o => if o.id == id then
            PurchaseOrdersService.applyUpdateData existingPO dto
              (PurchaseOrdersService.calculateTotalAmount
                ((table.filter (fun r => r.purchaseOrderId == id)).map (·.amount)))
          else o),
         table, n'⟩) := by
  simp only [PurchaseOrdersService.update, hfind, hc, Bool.false_eq_true, if_false, hstep]

/-- Claim C2: for every valid order, after a successful create and after
every successful update whose payload touches line items, the order's
`totalAmount` equals the sum of the amounts of the line items persisted for
that order in the resulting state. -/
theorem C2_totalAmount_matches_persisted :
    (∀ dto db po rows db', DB.wf db →
      PurchaseOrdersService.create dto db = .ok (po, rows, db') →
      po.totalAmount =
        ((db'.lineItems.filter (fun r => r.purchaseOrderId == po.id)).map (·.amount)).sum) ∧
    (∀ id dto db po db', (dto : UpdatePurchaseOrderDto).lineItems.isSome →
      PurchaseOrdersService.update id dto db = .ok (po, db') →
      po.totalAmount =
        ((db'.lineItems.filter (fun r => r.purchaseOrderId == po.id)).map (·.amount)).sum) := by
  constructor
  · intro dto db po rows db' hwf h
    obtain ⟨hid, hrows, hli, htot⟩ := create_ok_elim dto db po rows db' h
    rw [htot, hli, hid, List.filter_append]
    have h1 : db.lineItems.filter (fun r => r.purchaseOrderId == db.nextId) = [] := by
      apply List.filter_eq_nil_iff.mpr
      intro r hr
      have := (hwf.1 r hr).2
      simp only [beq_iff_eq]
      omega
    have h2 : rows.filter (fun r => r.purchaseOrderId == db.nextId) = rows :=
      filter_poId_self _ _ (by rw [hrows]; exact buildRowsFromCreate_poId _ _ _)
    rw [h1, h2]
    simp
  · intro id dto db po db' _ h
    obtain ⟨hid, htot, _⟩ := update_ok_elim id dto db po db' h
    rw [hid]
    exact htot

theorem C2_totalAmount_matches_persisted_witness :
    ((⟨0, "Acme", none, none, "PO-1", none, none, "AP", "Goods", none, none,
        "DRAFT", 6⟩ : PurchaseOrderRow).totalAmount =
      (((⟨[⟨0, "Acme", none, none, "PO-1", none, none, "AP", "Goods", none,
            none, "DRAFT", 6⟩],
          [⟨1, 0, "Widget", 2, 3, none, "5000", 6⟩], 2⟩ : DB).lineItems.filter
        (fun r => r.purchaseOrderId ==
          (⟨0, "Acme", none, none, "PO-1", none, none, "AP", "Goods", none,
            none, "DRAFT", 6⟩ : PurchaseOrderRow).id)).map (·.amount)).sum) ∧
    ((⟨0, "Acme", none, none, "PO-1", none, none, "AP", "Goods", none, none,
        "DRAFT", 10⟩ : PurchaseOrderRow).totalAmount =
      (((⟨[⟨0, "Acme", none, none, "PO-1", none, none, "AP", "Goods", none,
            none, "DRAFT", 10⟩],
          [⟨5, 0, "Desk", 5, 2, none, "5002", 10⟩], 6⟩ : DB).lineItems.filter
        (fun r => r.purchaseOrderId ==
          (⟨0, "Acme", none, none, "PO-1", none, none, "AP", "Goods", none,
            none, "DRAFT", 10⟩ : PurchaseOrderRow).id)).map (·.amount)).sum) :=
  ⟨C2_totalAmount_matches_persisted.1
    ⟨"Acme", none, none, "PO-1", none, none, "AP", "Goods", none, none, none,
      [⟨"Widget", 2, 3, none, "5000"⟩]⟩
    ⟨[], [], 0⟩
    ⟨0, "Acme", none, none, "PO-1", none, none, "AP", "Goods", none, none,
      "DRAFT", 6⟩
    [⟨1, 0, "Widget", 2, 3, none, "5000", 6⟩]
    ⟨[⟨0, "Acme", none, none, "PO-1", none, none, "AP", "Goods", none, none,
        "DRAFT", 6⟩],
      [⟨1, 0, "Widget", 2, 3, none, "5000", 6⟩], 2⟩
    (by simp [DB.wf])
    (by norm_num [PurchaseOrdersService.create,
      PurchaseOrdersService.buildRowsFromCreate,
      PurchaseOrdersService.calculateTotalAmount,
      PurchaseOrdersService.calculateLineItemAmount]),
   C2_totalAmount_matches_persisted.2 0
    (lineItemsOnlyDto (some
      [⟨none, false, some "Desk", some 5, some 2, none, some "5002"⟩]))
    ⟨[⟨0, "Acme", none, none, "PO-1", none, none, "AP", "Goods", none, none,
        "DRAFT", 999⟩],
      [⟨1, 0, "Widget", 2, 3, none, "5000", 6⟩], 5⟩
    ⟨0, "Acme", none, none, "PO-1", none, none, "AP", "Goods", none, none,
      "DRAFT", 10⟩
    ⟨[⟨0, "Acme", none, none, "PO-1", none, none, "AP", "Goods", none, none,
        "DRAFT", 10⟩],
      [⟨5, 0, "Desk", 5, 2, none, "5002", 10⟩], 6⟩
    rfl
    (by norm_num [PurchaseOrdersService.update, lineItemsOnlyDto,
      PurchaseOrdersService.poNumberConflict, PurchaseOrdersService.lineItemsStep,
      PurchaseOrdersService.handleLineItemsUpdate,
      PurchaseOrdersService.buildCreateRows,
      PurchaseOrdersService.applyUpdateData,
      PurchaseOrdersService.calculateTotalAmount,
      PurchaseOrdersService.calculateLineItemAmount])⟩

/-- Claim C9: every successful update recomputes `totalAmount` from the
persisted line items — including a call whose payload has no `lineItems`
field at all: such a header-only update leaves the line-item table unchanged
and still re-establishes `totalAmount` as the sum of the persisted line-item
amounts of the order. -/
theorem C9_header_only_update_recomputes_total (id : ℕ)
    (dto : UpdatePurchaseOrderDto) (db : DB) (po : PurchaseOrderRow) (db' : DB)
    (hnone : dto.lineItems = none)
    (h : PurchaseOrdersService.update id dto db = .ok (po, db')) :
    db'.lineItems = db.lineItems ∧
    po.totalAmount =
      ((db.lineItems.filter (fun r => r.purchaseOrderId == id)).map (·.amount)).sum := by
  obtain ⟨_, htot, hfr⟩ := update_ok_elim id dto db po db' h
  have he := hfr hnone
  exact ⟨he, by rw [htot, he]⟩

theorem C9_header_only_update_recomputes_total_witness :
    (⟨[⟨0, "Acme", none, none, "PO-1", none, none, "AP", "Goods", none, none,
        "DRAFT", 6⟩],
      [⟨1, 0, "Widget", 2, 3, none, "5000", 6⟩], 5⟩ : DB).lineItems =
      (⟨[⟨0, "Acme", none, none, "PO-1", none, none, "AP", "Goods", none, none,
          "DRAFT", 999⟩],
        [⟨1, 0, "Widget", 2, 3, none, "5000", 6⟩], 5⟩ : DB).lineItems ∧
    (⟨0, "Acme", none, none, "PO-1", none, none, "AP", "Goods", none, none,
        "DRAFT", 6⟩ : PurchaseOrderRow).totalAmount =
      (((⟨[⟨0, "Acme", none, none, "PO-1", none, none, "AP", "Goods", none,
            none, "DRAFT", 999⟩],
          [⟨1, 0, "Widget", 2, 3, none, "5000", 6⟩], 5⟩ : DB).lineItems.filter
        (fun r => r.purchaseOrderId == 0)).map (·.amount)).sum :=
  C9_header_only_update_recomputes_total 0 (lineItemsOnlyDto none)
    ⟨[⟨0, "Acme", none, none, "PO-1", none, none, "AP", "Goods", none, none,
        "DRAFT", 999⟩],
      [⟨1, 0, "Widget", 2, 3, none, "5000", 6⟩], 5⟩
    ⟨0, "Acme", none, none, "PO-1", none, none, "AP", "Goods", none, none,
      "DRAFT", 6⟩
    ⟨[⟨0, "Acme", none, none, "PO-1", none, none, "AP", "Goods", none, none,
        "DRAFT", 6⟩],
      [⟨1, 0, "Widget", 2, 3, none, "5000", 6⟩], 5⟩
    rfl
    (by norm_num [PurchaseOrdersService.update, lineItemsOnlyDto,
      PurchaseOrdersService.poNumberConflict, PurchaseOrdersService.lineItemsStep,
      PurchaseOrdersService.applyUpdateData, PurchaseOrdersService.calculateTotalAmount])

/-- Claim C8: updating an existing purchase order with `lineItems` equal to
the empty list succeeds, deletes every persisted line item of the order, and
sets its `totalAmount` to 0 — while the create DTO's `@ArrayMinSize(1)`
validation rejects an order with fewer than one line item, so the
at-least-one-line-item condition is not preserved by update. -/
theorem C8_update_empty_lineItems (db : DB) (o : PurchaseOrderRow)
    (hfind : db.orders.find? (fun x => x.id == o.id) = some o) :
    ∃ po db',
      PurchaseOrdersService.update o.id (lineItemsOnlyDto (some [])) db = .ok (po, db') ∧
      db'.lineItems.filter (fun r => r.purchaseOrderId == o.id) = [] ∧
      po.totalAmount = 0 ∧
      createLineItemsMinSizeOk [] = false := by
  have hc : PurchaseOrdersService.poNumberConflict (lineItemsOnlyDto (some []))
      o db.orders = false := rfl
  have hstep : PurchaseOrdersService.lineItemsStep o.id db (lineItemsOnlyDto (some [])) =
      some (db.lineItems.filter (fun r => !(r.purchaseOrderId == o.id)), db.nextId) := by
    simp [PurchaseOrdersService.lineItemsStep, lineItemsOnlyDto,
      PurchaseOrdersService.handleLineItemsUpdate]
  have hupd := update_eq_ok o.id (lineItemsOnlyDto (some [])) db o _ _ hfind hc hstep
  refine ⟨_, _, hupd, ?_, ?_, rfl⟩
  · exact remaining_filter_nil o.id db.lineItems
  · simp [PurchaseOrdersService.applyUpdateData, remaining_filter_nil,
      PurchaseOrdersService.calculateTotalAmount]

theorem C8_update_empty_lineItems_witness :
    ∃ po db',
      PurchaseOrdersService.update 0 (lineItemsOnlyDto (some []))
        ⟨[⟨0, "Acme", none, none, "PO-1", none, none, "AP", "Goods", none,
            none, "DRAFT", 6⟩],
          [⟨1, 0, "Widget", 2, 3, none, "5000", 6⟩], 5⟩ = .ok (po, db') ∧
      db'.lineItems.filter (fun r => r.purchaseOrderId == 0) = [] ∧
      po.totalAmount = 0 ∧
      createLineItemsMinSizeOk [] = false :=
  C8_update_empty_lineItems
    ⟨[⟨0, "Acme", none, none, "PO-1", none, none, "AP", "Goods", none, none,
        "DRAFT", 6⟩],
      [⟨1, 0, "Widget", 2, 3, none, "5000", 6⟩], 5⟩
    ⟨0, "Acme", none, none, "PO-1", none, none, "AP", "Goods", none, none,
      "DRAFT", 6⟩
    rfl

/-- Claim C1: starting from an order persisted with line items `[A, B]`,
an update whose payload is `[A (unchanged, with its id), B (with its id and
the deletion flag), C (new, no id)]` succeeds and leaves persisted for the
order exactly the elements `{A, C}` (compared by content: the full-replace
strategy re-creates rows under fresh identifiers), with
`totalAmount = A.amount + C.amount` where `C.amount` is C's computed
amount. -/
theorem C1_reconciliation_keep_delete_add (db : DB) (o : PurchaseOrderRow)
    (A B : LineItemRow) (cit : String) (cq cp : ℚ) (cdesc : Option String)
    (cgl : String)
    (hfind : db.orders.find? (fun x => x.id == o.id) = some o)
    (hitems : db.lineItems.filter (fun r => r.purchaseOrderId == o.id) = [A, B])
    (hA : A.amount = A.quantity * A.unitPrice) :
    ∃ po db',
      PurchaseOrdersService.update o.id
        (lineItemsOnlyDto (some
          [rowToIncoming A,
           ⟨some B.id, true, some B.item, some B.quantity, some B.unitPrice,
             B.description, some B.glAccount⟩,
           ⟨none, false, some cit, some cq, some cp, cdesc, some cgl⟩])) db
        = .ok (po, db') ∧
      (db'.lineItems.filter (fun r => r.purchaseOrderId == o.id)).map
          LineItemRow.content =
        [A.content,
         ⟨cit, cq, cp, cdesc, cgl,
           PurchaseOrdersService.calculateLineItemAmount cq cp⟩] ∧
      po.totalAmount = A.amount + PurchaseOrdersService.calculateLineItemAmount cq cp := by
  have hc : PurchaseOrdersService.poNumberConflict
      (lineItemsOnlyDto (some
        [rowToIncoming A,
         ⟨some B.id, true, some B.item, some B.quantity, some B.unitPrice,
           B.description, some B.glAccount⟩,
         ⟨none, false, some cit, some cq, some cp, cdesc, some cgl⟩]))
      o db.orders = false := rfl
  have hstep : PurchaseOrdersService.lineItemsStep o.id db
      (lineItemsOnlyDto (some
        [rowToIncoming A,
         ⟨some B.id, true, some B.item, some B.quantity, some B.unitPrice,
           B.description, some B.glAccount⟩,
         ⟨none, false, some cit, some cq, some cp, cdesc, some cgl⟩])) =
      some (db.lineItems.filter (fun r => !(r.purchaseOrderId == o.id)) ++
        [⟨db.nextId, o.id, A.item, A.quantity, A.unitPrice, A.description,
           A.glAccount,
           PurchaseOrdersService.calculateLineItemAmount A.quantity A.unitPrice⟩,
         ⟨db.nextId + 1, o.id, cit, cq, cp, cdesc, cgl,
           PurchaseOrdersService.calculateLineItemAmount cq cp⟩],
        db.nextId + 1 + 1) := by
    simp [PurchaseOrdersService.lineItemsStep, lineItemsOnlyDto,
      PurchaseOrdersService.handleLineItemsUpdate,
      PurchaseOrdersService.buildCreateRows, rowToIncoming]
  have hupd := update_eq_ok o.id _ db o _ _ hfind hc hstep
  refine ⟨_, _, hupd, ?_, ?_⟩
  · simp [List.filter_append, remaining_filter_nil, LineItemRow.content,
      PurchaseOrdersService.calculateLineItemAmount, hA]
  · simp [PurchaseOrdersService.applyUpdateData, List.filter_append,
      remaining_filter_nil, PurchaseOrdersService.calculateTotalAmount,
      PurchaseOrdersService.calculateLineItemAmount, hA]

theorem C1_reconciliation_keep_delete_add_witness :
    ∃ po db',
      PurchaseOrdersService.update
          (⟨0, "Acme", none, none, "PO-1", none, none, "AP", "Goods", none,
            none, "DRAFT", 10⟩ : PurchaseOrderRow).id
        (lineItemsOnlyDto (some
          [rowToIncoming ⟨1, 0, "Widget", 2, 3, none, "5000", 6⟩,
           ⟨some 2, true, some "Chair", some 1, some 4, none, some "5001"⟩,
           ⟨none, false, some "Desk", some 5, some 2, none, some "5002"⟩]))
        ⟨[⟨0, "Acme", none, none, "PO-1", none, none, "AP", "Goods", none,
            none, "DRAFT", 10⟩],
          [⟨1, 0, "Widget", 2, 3, none, "5000", 6⟩,
           ⟨2, 0, "Chair", 1, 4, none, "5001", 4⟩], 3⟩
        = .ok (po, db') ∧
      (db'.lineItems.filter (fun r => r.purchaseOrderId ==
          (⟨0, "Acme", none, none, "PO-1", none, none, "AP", "Goods", none,
            none, "DRAFT", 10⟩ : PurchaseOrderRow).id)).map LineItemRow.content =
        [(⟨1, 0, "Widget", 2, 3, none, "5000", 6⟩ : LineItemRow).content,
         ⟨"Desk", 5, 2, none, "5002",
           PurchaseOrdersService.calculateLineItemAmount 5 2⟩] ∧
      po.totalAmount =
        (⟨1, 0, "Widget", 2, 3, none, "5000", 6⟩ : LineItemRow).amount +
          PurchaseOrdersService.calculateLineItemAmount 5 2 :=
  C1_reconciliation_keep_delete_add
    ⟨[⟨0, "Acme", none, none, "PO-1", none, none, "AP", "Goods", none, none,
        "DRAFT", 10⟩],
      [⟨1, 0, "Widget", 2, 3, none, "5000", 6⟩,
       ⟨2, 0, "Chair", 1, 4, none, "5001", 4⟩], 3⟩
    ⟨0, "Acme", none, none, "PO-1", none, none, "AP", "Goods", none, none,
      "DRAFT", 10⟩
    ⟨1, 0, "Widget", 2, 3, none, "5000", 6⟩
    ⟨2, 0, "Chair", 1, 4, none, "5001", 4⟩
    "Desk" 5 2 none "5002"
    rfl
    rfl
    (by norm_num)

/-- Resubmitting persisted rows through the full-replace `createMany` path:
`buildCreateRows` succeeds on `items.map rowToIncoming`, and when every
resubmitted row satisfies the amount invariant the re-created rows keep the
original contents and amounts. -/
theorem buildCreateRows_resubmit (poId : ℕ) (items : List LineItemRow) :
    ∀ n : ℕ, (∀ r ∈ items, r.amount = r.quantity * r.unitPrice) →
    ∃ rows n',
      PurchaseOrdersService.buildCreateRows poId (items.map rowToIncoming) n =
        some (rows, n') ∧
      rows.map LineItemRow.content = items.map LineItemRow.content ∧
      (∀ r ∈ rows, r.purchaseOrderId = poId) ∧
      rows.map (·.amount) = items.map (·.amount) := by
  induction items with
  | nil => intro n _; exact ⟨[], n, rfl, rfl, by simp, rfl⟩
  | cons r rest ih =>
    intro n hinv
    obtain ⟨rows, n', hbuild, hcont, hpo, hamt⟩ :=
      ih (n + 1) (fun x hx => hinv x (List.mem_cons_of_mem r hx))
    refine ⟨{ id := n, purchaseOrderId := poId, item := r.item,
              quantity := r.quantity, unitPrice := r.unitPrice,
              description := r.description, glAccount := r.glAccount,
              amount := PurchaseOrdersService.calculateLineItemAmount
                r.quantity r.unitPrice } :: rows, n', ?_, ?_, ?_, ?_⟩
    · simp [PurchaseOrdersService.buildCreateRows, rowToIncoming, hbuild]
    · simp [LineItemRow.content, hcont,
        PurchaseOrdersService.calculateLineItemAmount,
        hinv r (List.mem_cons_self r rest)]
    · intro x hx
      rcases List.mem_cons.mp hx with h | h
      · subst h; rfl
      · exact hpo x h
    · simp [hamt, PurchaseOrdersService.calculateLineItemAmount,
        hinv r (List.mem_cons_self r rest)]

/-- Claim C4: reconciliation is idempotent under no-op resubmission — when
the currently persisted line items of an order (which satisfy the amount
invariant and determine its total) are resubmitted unchanged, the update
succeeds, the persisted line-item set is the same (by content; the
full-replace strategy re-creates the rows under fresh identifiers), and the
`totalAmount` is identical. -/
theorem C4_noop_resubmission_idempotent (db : DB) (o : PurchaseOrderRow)
    (hfind : db.orders.find? (fun x => x.id == o.id) = some o)
    (hinv : ∀ r ∈ db.lineItems.filter (fun r => r.purchaseOrderId == o.id),
      r.amount = r.quantity * r.unitPrice)
    (htot : o.totalAmount =
      ((db.lineItems.filter (fun r => r.purchaseOrderId == o.id)).map
        (·.amount)).sum) :
    ∃ po db',
      PurchaseOrdersService.update o.id
        (lineItemsOnlyDto (some ((db.lineItems.filter
          (fun r => r.purchaseOrderId == o.id)).map rowToIncoming))) db =
        .ok (po, db') ∧
      (db'.lineItems.filter (fun r => r.purchaseOrderId == o.id)).map
          LineItemRow.content =
        (db.lineItems.filter (fun r => r.purchaseOrderId == o.id)).map
          LineItemRow.content ∧
      po.totalAmount = o.totalAmount := by
  have hc : ∀ lis, PurchaseOrdersService.poNumberConflict
      (lineItemsOnlyDto (some lis)) o db.orders = false := fun _ => rfl
  by_cases hnil : db.lineItems.filter (fun r => r.purchaseOrderId == o.id) = []
  · have hstep : PurchaseOrdersService.lineItemsStep o.id db
        (lineItemsOnlyDto (some ((db.lineItems.filter
          (fun r => r.purchaseOrderId == o.id)).map rowToIncoming))) =
        some (db.lineItems.filter (fun r => !(r.purchaseOrderId == o.id)),
          db.nextId) := by
      simp [PurchaseOrdersService.lineItemsStep, lineItemsOnlyDto, hnil,
        PurchaseOrdersService.handleLineItemsUpdate]
    have hupd := update_eq_ok o.id _ db o _ _ hfind (hc _) hstep
    refine ⟨_, _, hupd, ?_, ?_⟩
    · simp [remaining_filter_nil, hnil]
    · rw [htot, hnil]
      simp [PurchaseOrdersService.applyUpdateData, remaining_filter_nil,
        PurchaseOrdersService.calculateTotalAmount]
  · obtain ⟨rows, n', hbuild, hcont, hpo, hamt⟩ :=
      buildCreateRows_resubmit o.id
        (db.lineItems.filter (fun r => r.purchaseOrderId == o.id)) db.nextId hinv
    have hfilterpayload : (((db.lineItems.filter
        (fun r => r.purchaseOrderId == o.id)).map rowToIncoming).filter
          (fun i => !i._delete)) =
        (db.lineItems.filter (fun r => r.purchaseOrderId == o.id)).map
          rowToIncoming := by
      apply List.filter_eq_self.mpr
      intro a ha
      obtain ⟨r, _, hra⟩ := List.mem_map.mp ha
      rw [← hra]
      rfl
    have hlen : 0 < (((db.lineItems.filter
        (fun r => r.purchaseOrderId == o.id)).map rowToIncoming)).length := by
      simpa using List.length_pos.mpr hnil
    have hstep : PurchaseOrdersService.lineItemsStep o.id db
        (lineItemsOnlyDto (some ((db.lineItems.filter
          (fun r => r.purchaseOrderId == o.id)).map rowToIncoming))) =
        some (db.lineItems.filter (fun r => !(r.purchaseOrderId == o.id)) ++ rows,
          n') := by
      simp only [PurchaseOrdersService.lineItemsStep, lineItemsOnlyDto]
      simp only [PurchaseOrdersService.handleLineItemsUpdate, hfilterpayload,
        hbuild, hlen, if_true]
    have hupd := update_eq_ok o.id _ db o _ _ hfind (hc _) hstep
    refine ⟨_, _, hupd, ?_, ?_⟩
    · simp only [List.filter_append, remaining_filter_nil,
        filter_poId_self o.id rows hpo, List.nil_append]
      exact hcont
    · rw [htot]
      simp only [PurchaseOrdersService.applyUpdateData]
      simp only [List.filter_append, remaining_filter_nil,
        filter_poId_self o.id rows hpo, List.nil_append,
        calculateTotalAmount_eq_sum, hamt]

theorem C4_noop_resubmission_idempotent_witness :
    ∃ po db',
      PurchaseOrdersService.update
          (⟨0, "Acme", none, none, "PO-1", none, none, "AP", "Goods", none,
            none, "DRAFT", 6⟩ : PurchaseOrderRow).id
        (lineItemsOnlyDto (some
          (((⟨[⟨0, "Acme", none, none, "PO-1", none, none, "AP", "Goods",
                none, none, "DRAFT", 6⟩],
              [⟨1, 0, "Widget", 2, 3, none, "5000", 6⟩], 3⟩ : DB).lineItems.filter
            (fun r => r.purchaseOrderId ==
              (⟨0, "Acme", none, none, "PO-1", none, none, "AP", "Goods",
                none, none, "DRAFT", 6⟩ : PurchaseOrderRow).id)).map rowToIncoming)))
        ⟨[⟨0, "Acme", none, none, "PO-1", none, none, "AP", "Goods", none,
            none, "DRAFT", 6⟩],
          [⟨1, 0, "Widget", 2, 3, none, "5000", 6⟩], 3⟩ = .ok (po, db') ∧
      (db'.lineItems.filter (fun r => r.purchaseOrderId ==
          (⟨0, "Acme", none, none, "PO-1", none, none, "AP", "Goods", none,
            none, "DRAFT", 6⟩ : PurchaseOrderRow).id)).map LineItemRow.content =
        (((⟨[⟨0, "Acme", none, none, "PO-1", none, none, "AP", "Goods", none,
              none, "DRAFT", 6⟩],
            [⟨1, 0, "Widget", 2, 3, none, "5000", 6⟩], 3⟩ : DB).lineItems.filter
          (fun r => r.purchaseOrderId ==
            (⟨0, "Acme", none, none, "PO-1", none, none, "AP", "Goods", none,
              none, "DRAFT", 6⟩ : PurchaseOrderRow).id)).map LineItemRow.content) ∧
      po.totalAmount =
        (⟨0, "Acme", none, none, "PO-1", none, none, "AP", "Goods", none,
          none, "DRAFT", 6⟩ : PurchaseOrderRow).totalAmount :=
  C4_noop_resubmission_idempotent
    ⟨[⟨0, "Acme", none, none, "PO-1", none, none, "AP", "Goods", none, none,
        "DRAFT", 6⟩],
      [⟨1, 0, "Widget", 2, 3, none, "5000", 6⟩], 3⟩
    ⟨0, "Acme", none, none, "PO-1", none, none, "AP", "Goods", none, none,
      "DRAFT", 6⟩
    rfl
    (by intro r hr; simp at hr; subst hr; norm_num)
    (by simp)
